import Mathlib

/-!
# UL Solutions demo-data generators — verification development

Shallow embedding of the two synthetic-data generators of this repository:

* `src/notebooks/00_setup_generate_pdfs.py` — the certification-PDF
  ("Document") generator, embedded as `generateEquipmentPdf`;
* `src/notebooks/02_generate_structured_data.py` — the structured-table
  ("Dataset") generator, embedded as `facilitiesData`, `mkInvRow` /
  `inventoryRows`, `mkWorkOrder` / `workOrderRows`, `mkContract` /
  `contractsData`.

Modelling conventions:

* Every call to a `random.*` primitive is replaced by one field of an
  explicit choice record (`DocChoice`, `InvChoice`, `WoChoice`, `CtrChoice`).
  The contract of the corresponding primitive (the range of `randint`,
  membership for `choice`/`choices`, the no-duplicates/length/subset contract
  of `sample`) is captured by the record's `Valid` predicate, so theorems
  quantified over all valid choice records cover every possible run.
  A whole batch takes a stream `Nat → Choice`, one record per generated unit,
  matching the fixed call order of the straight-line Python loops.
* Python `date`/`datetime` values are modelled as day offsets from the fixed
  base date each notebook uses (2018-01-01 for inventory, 2023-01-01 for
  contracts, 2024-01-01 for work orders); `datetime` additionally carries the
  drawn hour (6..18) and minute, so `.date()` is the day offset (the drawn
  hour never reaches midnight, so adding whole days never rolls the date).
* Python floats produced by `round(random.uniform(a, b), k)` are modelled as
  rationals constrained to `[a, b]` (rounding to `k` decimals keeps the value
  inside the bounds used here, whose endpoints have at most `k` decimals).
* Rendering-only content of the PDF generator (reportlab layout, the two
  vector drawings, the GD&T and material tables, and the per-test
  measured-value / threshold presentation strings) is not part of any claim
  and is not modelled; the test-result rows carry the two fields the claims
  are about: the sampled test name and the drawn PASS/FAIL result.
* In `mkSummary`, `passed / total * 100` is division in `ℚ`; the guarded
  claims only use it when `total > 0`, where it agrees with Python.
-/

/-- Zero-padded decimal rendering, Python's `f"{n:0{w}d}"` for `n ≥ 0`. -/
def padZeros (w : Nat) (n : Nat) : String :=
  let s := toString n
  String.mk (List.replicate (w - s.length) '0') ++ s

/-- Round half to even to an integer, Python's `round(q)` on exact values. -/
def roundHalfEven (q : ℚ) : ℤ :=
  if Int.fract q < 1/2 then ⌊q⌋
  else if 1/2 < Int.fract q then ⌊q⌋ + 1
  else if 2 ∣ ⌊q⌋ then ⌊q⌋ else ⌊q⌋ + 1

/-- Python's `round(q, 1)` on exact values. -/
def pyRound1 (q : ℚ) : ℚ := (roundHalfEven (q * 10) : ℚ) / 10

namespace PdfGen

/- Reference vocabularies transcribed from `00_setup_generate_pdfs.py`. -/

def MANUFACTURERS : List String := [
  "Siemens Industrial Systems", "ABB Power Solutions", "Schneider Electric",
  "Eaton Corporation", "Rockwell Automation", "Honeywell Process Solutions",
  "Emerson Electric", "GE Industrial", "Mitsubishi Electric", "Yokogawa Electric"]

def EQUIPMENT_TYPES : List (String × String) := [
  ("Industrial Motor Controller", "IMC"),
  ("Power Distribution Unit", "PDU"),
  ("Programmable Logic Controller", "PLC"),
  ("Variable Frequency Drive", "VFD"),
  ("Circuit Breaker Assembly", "CBA"),
  ("Transformer Unit", "TRU"),
  ("Motor Starter Panel", "MSP"),
  ("Switchgear Assembly", "SGA"),
  ("Uninterruptible Power Supply", "UPS"),
  ("Industrial Relay Module", "IRM")]

def MATERIALS : List String := [
  "Aluminum 6061-T6", "Stainless Steel 304", "Carbon Steel ASTM A36",
  "Copper C11000", "Brass C36000", "Polycarbonate (Lexan)",
  "Glass-Filled Nylon (PA66-GF30)", "HDPE", "Fiberglass FR-4", "Cast Iron Class 30"]

def SAFETY_RATINGS : List String :=
  ["UL 508A", "UL 891", "UL 1558", "UL 67", "UL 489", "UL 508", "UL 61010-1"]

def IP_RATINGS : List String := ["IP20", "IP44", "IP54", "IP55", "IP65", "IP66", "IP67"]

def COMPLIANCE_STANDARDS : List String := [
  "UL", "CSA", "IEC 61439", "NEMA 250", "IEEE C37",
  "NEC Article 409", "EN 60204-1", "ISO 13849-1"]

def TEST_NAMES : List String := [
  "Dielectric Withstand Test", "Insulation Resistance Test",
  "Ground Continuity Test", "Short-Circuit Current Rating Test",
  "Temperature Rise Test", "Overload Protection Test",
  "Environmental Stress Screening", "Vibration Endurance Test",
  "Salt Spray Corrosion Test", "Humidity Resistance Test",
  "Thermal Shock Test", "EMC Immunity Test",
  "Arc Flash Hazard Test", "IP Enclosure Integrity Test"]

/-- The inline population at the `voltage = random.choice([...])` draw. -/
def VOLTAGES : List String := ["120V AC", "240V AC", "480V AC", "24V DC", "48V DC", "600V AC"]

/-- Inline population of the `temp_min` draw. -/
def TEMP_MINS : List Int := [-40, -25, -20, -10, 0]

/-- Inline population of the `temp_max` draw. -/
def TEMP_MAXS : List Nat := [50, 55, 60, 70, 85]

/-- Inline population of the `cert_status` draw:
`random.choices(["PASS", "CONDITIONAL", "PASS", "PASS"], weights=[6, 2, 1, 1])`. -/
def certStatusPopulation : List String := ["PASS", "CONDITIONAL", "PASS", "PASS"]

/-- The weight list paired with `certStatusPopulation`. -/
def certStatusWeights : List Nat := [6, 2, 1, 1]

/-- Total weight a status value receives across all of its (possibly
duplicated) positions in the population list. -/
def certStatusWeightOf (s : String) : Nat :=
  (((certStatusPopulation.zip certStatusWeights).filter (fun p => p.1 = s)).map
    (fun p => p.2)).sum

/-- `random_model_number(prefix)`: the three `random` draws become arguments. -/
def random_model_number (pfx : String) (num letterIdx digit : Nat) : String :=
  pfx ++ "-" ++ toString num ++ "-" ++
    ("ABCDEFGH".toList.getD letterIdx 'A').toString ++ toString digit

/-- `random_cert_id()`: the two `random.randint` draws become arguments. -/
def random_cert_id (year num : Nat) : String :=
  "UL-" ++ toString year ++ "-" ++ toString num

/-- One row of the certification test-result table: the sampled test name and
the drawn `result` (column 3 of `test_data`). -/
structure TestRow where
  name : String
  result : String
deriving DecidableEq, Repr

/-- The row-building loop `for test_name in selected_tests: ... append(...)`,
with the per-row result draws supplied as a parallel list. -/
def mkTestRows (names results : List String) : List TestRow :=
  (names.zip results).map (fun p => { name := p.1, result := p.2 })

/-- The roll-up block computed after the test table:
`total_tests = len(test_data) - 1`, `passed` counts `"PASS"` rows,
`failed = total_tests - passed`, and the printed
`Pass Rate: {round(passed / total_tests * 100, 1)}%`. -/
structure CertSummary where
  total_tests : Nat
  passed : Nat
  failed : Nat
  pass_rate : ℚ
deriving Repr

def mkSummary (rows : List TestRow) : CertSummary :=
  let total := rows.length
  let passed := (rows.filter (fun r => r.result = "PASS")).length
  let failed := total - passed
  { total_tests := total, passed := passed, failed := failed,
    pass_rate := pyRound1 ((passed : ℚ) / (total : ℚ) * 100) }

/-- One random draw per field of `generate_equipment_pdf`, in program order. -/
structure DocChoice where
  eqIdx : Nat            -- random.choice(EQUIPMENT_TYPES)
  mfrIdx : Nat           -- random.choice(MANUFACTURERS)
  modelNum : Nat         -- randint(1000, 9999) inside random_model_number
  modelLetterIdx : Nat   -- random.choice('ABCDEFGH')
  modelDigit : Nat       -- randint(1, 9)
  certYear : Nat         -- randint(2024, 2026) inside random_cert_id
  certNum : Nat          -- randint(100000, 999999)
  matIdx : Nat           -- random.choice(MATERIALS)
  safetyIdx : Nat        -- random.choice(SAFETY_RATINGS)
  ipIdx : Nat            -- random.choice(IP_RATINGS)
  standards : List String  -- random.sample(COMPLIANCE_STANDARDS, k=randint(3, 5))
  weightKg : ℚ           -- round(random.uniform(2.5, 150.0), 1)
  voltIdx : Nat          -- random.choice(VOLTAGES population)
  tempMinIdx : Nat       -- random.choice([-40, -25, -20, -10, 0])
  tempMaxIdx : Nat       -- random.choice([50, 55, 60, 70, 85])
  statusIdx : Nat        -- random.choices(certStatusPopulation, weights=[6,2,1,1])
  reportMonth : Nat      -- randint(1, 2)
  reportDay : Nat        -- randint(1, 28)
  numTests : Nat         -- randint(7, 12)
  selectedTests : List String  -- random.sample(TEST_NAMES, k=min(num_tests, len(TEST_NAMES)))
  testResults : List String    -- per row: random.choices(["PASS", "FAIL"], weights=[9, 1])

/-- Contracts of the random primitives consumed by `generate_equipment_pdf`.
Positions with positive weight are over-approximated by arbitrary in-range
indices (every weight in this file is positive, so nothing is lost). -/
def DocChoice.Valid (c : DocChoice) : Prop :=
  c.eqIdx < EQUIPMENT_TYPES.length ∧
  c.mfrIdx < MANUFACTURERS.length ∧
  1000 ≤ c.modelNum ∧ c.modelNum ≤ 9999 ∧
  c.modelLetterIdx < 8 ∧
  1 ≤ c.modelDigit ∧ c.modelDigit ≤ 9 ∧
  2024 ≤ c.certYear ∧ c.certYear ≤ 2026 ∧
  100000 ≤ c.certNum ∧ c.certNum ≤ 999999 ∧
  c.matIdx < MATERIALS.length ∧
  c.safetyIdx < SAFETY_RATINGS.length ∧
  c.ipIdx < IP_RATINGS.length ∧
  3 ≤ c.standards.length ∧ c.standards.length ≤ 5 ∧ c.standards.Nodup ∧
  (∀ s ∈ c.standards, s ∈ COMPLIANCE_STANDARDS) ∧
  5/2 ≤ c.weightKg ∧ c.weightKg ≤ 150 ∧
  c.voltIdx < VOLTAGES.length ∧
  c.tempMinIdx < TEMP_MINS.length ∧
  c.tempMaxIdx < TEMP_MAXS.length ∧
  c.statusIdx < certStatusPopulation.length ∧
  1 ≤ c.reportMonth ∧ c.reportMonth ≤ 2 ∧
  1 ≤ c.reportDay ∧ c.reportDay ≤ 28 ∧
  7 ≤ c.numTests ∧ c.numTests ≤ 12 ∧
  c.selectedTests.length = min c.numTests TEST_NAMES.length ∧
  c.selectedTests.Nodup ∧
  (∀ t ∈ c.selectedTests, t ∈ TEST_NAMES) ∧
  c.testResults.length = c.selectedTests.length ∧
  (∀ r ∈ c.testResults, r = "PASS" ∨ r = "FAIL")

/-- The data content of one generated certification document (everything
`generate_equipment_pdf` draws and returns, minus pure page layout). -/
structure CertDoc where
  equipment_name : String
  eqCode : String
  model_number : String
  manufacturer : String
  certification_id : String
  material : String
  safety_rating : String
  ip_rating : String
  compliance_standards : String
  weightKg : ℚ
  voltage : String
  temp_min : Int
  temp_max : Nat
  certification_status : String
  report_date : String
  testRows : List TestRow
  summary : CertSummary
  filename : String

/-- `generate_equipment_pdf(doc_index)` as a pure function of its draws. -/
def generateEquipmentPdf (c : DocChoice) : CertDoc :=
  let p := EQUIPMENT_TYPES.getD c.eqIdx ("", "")
  let manufacturer := MANUFACTURERS.getD c.mfrIdx ""
  let model := random_model_number p.2 c.modelNum c.modelLetterIdx c.modelDigit
  let cert_id := random_cert_id c.certYear c.certNum
  let rows := mkTestRows c.selectedTests c.testResults
  { equipment_name := p.1
    eqCode := p.2
    model_number := model
    manufacturer := manufacturer
    certification_id := cert_id
    material := MATERIALS.getD c.matIdx ""
    safety_rating := SAFETY_RATINGS.getD c.safetyIdx ""
    ip_rating := IP_RATINGS.getD c.ipIdx ""
    compliance_standards := String.intercalate ", " c.standards
    weightKg := c.weightKg
    voltage := VOLTAGES.getD c.voltIdx ""
    temp_min := TEMP_MINS.getD c.tempMinIdx 0
    temp_max := TEMP_MAXS.getD c.tempMaxIdx 0
    certification_status := certStatusPopulation.getD c.statusIdx ""
    report_date := "2026-" ++ padZeros 2 c.reportMonth ++ "-" ++ padZeros 2 c.reportDay
    testRows := rows
    summary := mkSummary rows
    filename := "UL_Cert_" ++ (cert_id.replace "-" "_") ++ "_" ++
      (model.replace "-" "_") ++ ".pdf" }

end PdfGen

namespace DataGen

/- Reference vocabularies transcribed from `02_generate_structured_data.py`.
The notebook keeps its own copies of these literals; keeping two transcriptions
lets the vocabulary-alignment property be stated as an actual comparison. -/

def MANUFACTURERS : List String := [
  "Siemens Industrial Systems", "ABB Power Solutions", "Schneider Electric",
  "Eaton Corporation", "Rockwell Automation", "Honeywell Process Solutions",
  "Emerson Electric", "GE Industrial", "Mitsubishi Electric", "Yokogawa Electric"]

def EQUIPMENT_TYPES : List (String × String) := [
  ("Industrial Motor Controller", "IMC"),
  ("Power Distribution Unit", "PDU"),
  ("Programmable Logic Controller", "PLC"),
  ("Variable Frequency Drive", "VFD"),
  ("Circuit Breaker Assembly", "CBA"),
  ("Transformer Unit", "TRU"),
  ("Motor Starter Panel", "MSP"),
  ("Switchgear Assembly", "SGA"),
  ("Uninterruptible Power Supply", "UPS"),
  ("Industrial Relay Module", "IRM")]

def VOLTAGES : List String := ["120V AC", "240V AC", "480V AC", "24V DC", "48V DC", "600V AC"]

def IP_RATINGS : List String := ["IP20", "IP44", "IP54", "IP55", "IP65", "IP66", "IP67"]

/-- One row of the literal `facilities_data` table. -/
structure Facility where
  facility_id : String
  facility_name : String
  city : String
  state_province : String
  country : String
  region : String
  facility_type : String
  square_footage : Nat
  employee_count : Nat
  opened_date : String
deriving DecidableEq, Repr

/-- The fixed `facilities_data` literal — not randomized. -/
def facilitiesData : List Facility := [
  { facility_id := "FAC-001", facility_name := "Chicago Manufacturing Complex",
    city := "Chicago", state_province := "IL", country := "United States",
    region := "North America", facility_type := "Manufacturing Plant",
    square_footage := 285000, employee_count := 1420, opened_date := "1998-03-15" },
  { facility_id := "FAC-002", facility_name := "Houston Energy Center",
    city := "Houston", state_province := "TX", country := "United States",
    region := "North America", facility_type := "Manufacturing Plant",
    square_footage := 342000, employee_count := 1850, opened_date := "2002-07-22" },
  { facility_id := "FAC-003", facility_name := "Detroit Automation Hub",
    city := "Detroit", state_province := "MI", country := "United States",
    region := "North America", facility_type := "Manufacturing Plant",
    square_footage := 198000, employee_count := 980, opened_date := "2005-11-01" },
  { facility_id := "FAC-004", facility_name := "Charlotte Distribution Center",
    city := "Charlotte", state_province := "NC", country := "United States",
    region := "North America", facility_type := "Distribution Center",
    square_footage := 156000, employee_count := 420, opened_date := "2010-04-18" },
  { facility_id := "FAC-005", facility_name := "San Jose R&D Laboratory",
    city := "San Jose", state_province := "CA", country := "United States",
    region := "North America", facility_type := "R&D Laboratory",
    square_footage := 78000, employee_count := 310, opened_date := "2012-09-30" },
  { facility_id := "FAC-006", facility_name := "Toronto Systems Integration",
    city := "Toronto", state_province := "ON", country := "Canada",
    region := "North America", facility_type := "Manufacturing Plant",
    square_footage := 165000, employee_count := 720, opened_date := "2008-01-10" },
  { facility_id := "FAC-007", facility_name := "Monterrey Assembly Plant",
    city := "Monterrey", state_province := "NL", country := "Mexico",
    region := "North America", facility_type := "Manufacturing Plant",
    square_footage := 210000, employee_count := 1100, opened_date := "2015-06-25" },
  { facility_id := "FAC-008", facility_name := "Frankfurt European Operations",
    city := "Frankfurt", state_province := "HE", country := "Germany",
    region := "EMEA", facility_type := "Manufacturing Plant",
    square_footage := 230000, employee_count := 1280, opened_date := "2001-08-14" }]

/-- `facility_ids = [f[0] for f in facilities_data]`. -/
def facility_ids : List String := facilitiesData.map (fun f => f.facility_id)

/-- The `facility_weights` dict (all weights are positive, so every facility
id is a possible outcome of the weighted draw). -/
def facility_weights (fid : String) : Nat :=
  if fid = "FAC-001" then 20 else if fid = "FAC-002" then 24
  else if fid = "FAC-003" then 14 else if fid = "FAC-004" then 8
  else if fid = "FAC-005" then 5 else if fid = "FAC-006" then 10
  else if fid = "FAC-007" then 15 else if fid = "FAC-008" then 18 else 0

def INSTALL_LOCATIONS : List String := [
  "Production Line 1", "Production Line 2", "Production Line 3",
  "Assembly Area A", "Assembly Area B", "Utility Room",
  "Control Room", "Shipping Dock", "Quality Lab",
  "Motor Control Center", "Substation", "Roof Mechanical",
  "Maintenance Shop", "Boiler Room", "Compressor Room"]

def OPERATIONAL_STATUSES : List String := [
  "Active", "Active", "Active", "Active", "Active",
  "Under Maintenance", "Standby", "Decommissioned"]

/-- The `base_prices` dict with its `.get(eq_prefix, (2000, 20000))` default. -/
def basePrices (code : String) : ℚ × ℚ :=
  if code = "TRU" then (18000, 85000) else if code = "SGA" then (25000, 120000)
  else if code = "PDU" then (8000, 35000) else if code = "VFD" then (3000, 22000)
  else if code = "PLC" then (2000, 15000) else if code = "UPS" then (5000, 40000)
  else if code = "CBA" then (1500, 12000) else if code = "IMC" then (2500, 18000)
  else if code = "MSP" then (4000, 25000) else if code = "IRM" then (800, 6000)
  else (2000, 20000)

/-- Inline population of the `warranty_years` draw. -/
def WARRANTY_YEARS : List Nat := [1, 2, 3, 5]

/-- Inline population of the `next_inspection` offset draw. -/
def NEXT_INSPECTION_OFFSETS : List Nat := [90, 180, 365]

/-- `date(2026, 2, 17)` as a day offset from the inventory base date
`date(2018, 1, 1)`: 2018-2025 contribute 365·6 + 366·2 = 2922 days up to
2026-01-01, plus 31 + 16 = 47 days to Feb 17. -/
def invTodayOffset : Nat := 2969

/-- `generate_model_number` of the dataset notebook (same format string as
the PDF notebook's `random_model_number`). -/
def generate_model_number (pfx : String) (num letterIdx digit : Nat) : String :=
  pfx ++ "-" ++ toString num ++ "-" ++
    ("ABCDEFGH".toList.getD letterIdx 'A').toString ++ toString digit

/-- `generate_serial(manufacturer, idx)` with its `randint(2020, 2026)` draw
as an argument: first letters of the first two words, uppercased. -/
def generate_serial (manufacturer : String) (year idx : Nat) : String :=
  (String.mk (((manufacturer.splitOn " ").take 2).map (fun w => w.toList.headD ' '))).toUpper
    ++ "-" ++ toString year ++ "-" ++ padZeros 6 idx

/-- One random draw per field of the inventory-row loop, in program order. -/
structure InvChoice where
  eqIdx : Nat           -- random.choice(EQUIPMENT_TYPES)
  mfrIdx : Nat          -- random.choice(MANUFACTURERS)
  modelNum : Nat        -- randint(1000, 9999)
  modelLetterIdx : Nat  -- random.choice('ABCDEFGH')
  modelDigit : Nat      -- randint(1, 9)
  facIdx : Nat          -- random.choices(facility_ids, weights=...)
  purchaseOffset : Nat  -- randint(0, 2800)
  warrantyIdx : Nat     -- random.choice([1, 2, 3, 5])
  inspOffset : Nat      -- randint(30, min(2800, (date(2026,2,17) - purchase_date).days))
  nextInspIdx : Nat     -- random.choice([90, 180, 365])
  purchasePrice : ℚ     -- round(random.uniform(*price_range), 2)
  serialYear : Nat      -- randint(2020, 2026) inside generate_serial
  voltIdx : Nat         -- random.choice(VOLTAGES)
  ipIdx : Nat           -- random.choice(IP_RATINGS)
  statusIdx : Nat       -- random.choice(OPERATIONAL_STATUSES)
  locIdx : Nat          -- random.choice(INSTALL_LOCATIONS)

/-- Contracts of the random primitives consumed per inventory row. -/
def InvChoice.Valid (c : InvChoice) : Prop :=
  c.eqIdx < EQUIPMENT_TYPES.length ∧
  c.mfrIdx < MANUFACTURERS.length ∧
  1000 ≤ c.modelNum ∧ c.modelNum ≤ 9999 ∧
  c.modelLetterIdx < 8 ∧
  1 ≤ c.modelDigit ∧ c.modelDigit ≤ 9 ∧
  c.facIdx < facility_ids.length ∧
  c.purchaseOffset ≤ 2800 ∧
  c.warrantyIdx < WARRANTY_YEARS.length ∧
  30 ≤ c.inspOffset ∧ c.inspOffset ≤ min 2800 (invTodayOffset - c.purchaseOffset) ∧
  c.nextInspIdx < NEXT_INSPECTION_OFFSETS.length ∧
  (basePrices (EQUIPMENT_TYPES.getD c.eqIdx ("", "")).2).1 ≤ c.purchasePrice ∧
  c.purchasePrice ≤ (basePrices (EQUIPMENT_TYPES.getD c.eqIdx ("", "")).2).2 ∧
  2020 ≤ c.serialYear ∧ c.serialYear ≤ 2026 ∧
  c.voltIdx < VOLTAGES.length ∧
  c.ipIdx < IP_RATINGS.length ∧
  c.statusIdx < OPERATIONAL_STATUSES.length ∧
  c.locIdx < INSTALL_LOCATIONS.length

/-- One row of `inventory_rows`; dates are day offsets from `date(2018, 1, 1)`. -/
structure InventoryAsset where
  asset_id : String
  model_number : String
  equipment_type : String
  equipment_type_code : String
  manufacturer : String
  facility_id : String
  serial_number : String
  purchaseD : Nat
  purchase_price_usd : ℚ
  warrantyExpD : Nat
  operational_status : String
  voltage_rating : String
  ip_rating : String
  lastInspD : Nat
  nextInspD : Nat
  install_location : String

/-- Iteration `i` of the `for i in range(120)` inventory loop. -/
def mkInvRow (i : Nat) (c : InvChoice) : InventoryAsset :=
  let p := EQUIPMENT_TYPES.getD c.eqIdx ("", "")
  let manufacturer := MANUFACTURERS.getD c.mfrIdx ""
  let purchaseD := c.purchaseOffset
  let lastInspD := purchaseD + c.inspOffset
  { asset_id := "AST-" ++ padZeros 6 (i + 1)
    model_number := generate_model_number p.2 c.modelNum c.modelLetterIdx c.modelDigit
    equipment_type := p.1
    equipment_type_code := p.2
    manufacturer := manufacturer
    facility_id := facility_ids.getD c.facIdx ""
    serial_number := generate_serial manufacturer c.serialYear (i + 1)
    purchaseD := purchaseD
    purchase_price_usd := c.purchasePrice
    warrantyExpD := purchaseD + (WARRANTY_YEARS.getD c.warrantyIdx 0) * 365
    operational_status := OPERATIONAL_STATUSES.getD c.statusIdx ""
    voltage_rating := VOLTAGES.getD c.voltIdx ""
    ip_rating := IP_RATINGS.getD c.ipIdx ""
    lastInspD := lastInspD
    nextInspD := lastInspD + NEXT_INSPECTION_OFFSETS.getD c.nextInspIdx 0
    install_location := INSTALL_LOCATIONS.getD c.locIdx "" }

/-- The whole `inventory_rows` batch: `for i in range(120)`. -/
def inventoryRows (cs : Nat → InvChoice) : List InventoryAsset :=
  (List.range 120).map (fun i => mkInvRow i (cs i))

/-- `asset_ids = [row[0] for row in inventory_rows]`. -/
def asset_ids (cs : Nat → InvChoice) : List String :=
  (inventoryRows cs).map (fun a => a.asset_id)

end DataGen

namespace DataGen

def WORK_ORDER_TYPES : List String := [
  "Preventive Maintenance", "Preventive Maintenance", "Preventive Maintenance",
  "Corrective Repair", "Corrective Repair",
  "Inspection", "Inspection",
  "Calibration",
  "Emergency Repair"]

def PRIORITIES : List String :=
  ["Critical", "High", "High", "Medium", "Medium", "Medium", "Low", "Low"]

def WO_STATUSES : List String := [
  "Completed", "Completed", "Completed", "Completed",
  "In Progress", "Open", "Cancelled"]

def TECHNICIANS : List String := [
  "Mike Rodriguez", "Sarah Chen", "James Kowalski", "Lisa Patel",
  "Carlos Mendez", "Emily Thornton", "David Kim", "Amanda Foster",
  "Robert Okonkwo", "Jennifer Wu", "Thomas Schmidt", "Maria Gonzalez",
  "Kevin O\x27Brien", "Rachel Nakamura", "Antonio Rossi"]

/-- Inline population of the Emergency Repair priority override draw. -/
def EMERGENCY_PRIORITIES : List String := ["Critical", "Critical", "High"]

/-- The `WORK_DESCRIPTIONS` dict together with the
`.get(wo_type, ["General maintenance activity"])` default used at the draw. -/
def WORK_DESCRIPTIONS (t : String) : List String :=
  if t = "Preventive Maintenance" then [
    "Quarterly PM — lubrication, filter replacement, visual inspection of connections",
    "Annual preventive maintenance — full teardown, bearing inspection, torque checks",
    "Semi-annual PM — thermal scan, vibration analysis, firmware check",
    "Monthly PM — clean enclosure, check indicator lights, verify alarm functions",
    "Scheduled maintenance — replace cooling fans, clean heat sinks, test interlocks"]
  else if t = "Corrective Repair" then [
    "Replaced failed contactor — intermittent tripping reported by operators",
    "Repaired communication module — Modbus timeout errors on SCADA",
    "Replaced blown fuse and inspected for root cause — overcurrent event logged",
    "Fixed overheating issue — replaced thermal paste and cleaned air vents",
    "Replaced damaged display panel — cracked during adjacent equipment installation"]
  else if t = "Inspection" then [
    "Annual safety inspection per NFPA 70E — all clearances verified",
    "Quarterly thermographic inspection — no hot spots detected",
    "Pre-shutdown inspection — verified isolation points and lockout procedures",
    "Insurance compliance inspection — all labels and markings verified current"]
  else if t = "Calibration" then [
    "Annual calibration of current transformers — within ±0.5% tolerance",
    "Recalibrated analog outputs — drift detected during routine checks",
    "Temperature sensor calibration — 3-point verification against NIST standard"]
  else if t = "Emergency Repair" then [
    "Emergency callout — unit tripped on ground fault, production line down",
    "Emergency repair — power supply failure causing cascading alarms",
    "Emergency response — smoke detected from enclosure, isolated and inspected"]
  else ["General maintenance activity"]

/-- One random draw per field of the work-order loop, in program order.
Fields of branches the run does not enter are simply unused. -/
structure WoChoice where
  assetIdx : Nat        -- random.choice(asset_ids)
  typeIdx : Nat         -- random.choice(WORK_ORDER_TYPES)
  prioIdx : Nat         -- random.choice(PRIORITIES)
  emergPrioIdx : Nat    -- random.choice(["Critical", "Critical", "High"])
  statusIdx : Nat       -- random.choice(WO_STATUSES)
  createdDay : Nat      -- randint(0, 775)
  createdHour : Nat     -- randint(6, 18)
  createdMin : Nat      -- randint(0, 59)
  schedOffset : Nat     -- randint(0, 14)
  complOffset : Nat     -- randint(0, 3)
  laborCompleted : ℚ    -- round(random.uniform(0.5, 16.0), 1)
  partsCost : ℚ         -- round(random.uniform(0, 4500), 2)
  downtime : ℚ          -- round(random.uniform(0, 8.0), 1)
  laborInProgress : ℚ   -- round(random.uniform(0.5, 4.0), 1)
  techIdx : Nat         -- random.choice(TECHNICIANS)
  descIdx : Nat         -- random.choice(WORK_DESCRIPTIONS.get(wo_type, ...))

/-- Contracts of the random primitives consumed per work order; `nAssets` is
the length of the `asset_ids` list the loop draws from. -/
def WoChoice.Valid (nAssets : Nat) (c : WoChoice) : Prop :=
  c.assetIdx < nAssets ∧
  c.typeIdx < WORK_ORDER_TYPES.length ∧
  c.prioIdx < PRIORITIES.length ∧
  c.emergPrioIdx < EMERGENCY_PRIORITIES.length ∧
  c.statusIdx < WO_STATUSES.length ∧
  c.createdDay ≤ 775 ∧
  6 ≤ c.createdHour ∧ c.createdHour ≤ 18 ∧
  c.createdMin ≤ 59 ∧
  c.schedOffset ≤ 14 ∧
  c.complOffset ≤ 3 ∧
  1/2 ≤ c.laborCompleted ∧ c.laborCompleted ≤ 16 ∧
  0 ≤ c.partsCost ∧ c.partsCost ≤ 4500 ∧
  0 ≤ c.downtime ∧ c.downtime ≤ 8 ∧
  1/2 ≤ c.laborInProgress ∧ c.laborInProgress ≤ 4 ∧
  c.techIdx < TECHNICIANS.length ∧
  c.descIdx < (WORK_DESCRIPTIONS (WORK_ORDER_TYPES.getD c.typeIdx "")).length

/-- One row of `work_order_rows`.  `created_at` is kept as (day offset from
`datetime(2024, 1, 1)`, hour, minute); since the drawn hour is in 6..18, the
date part of `created_at` is exactly `createdDay`.  `scheduled_date` and
`completed_date` are day offsets from the same base. -/
structure WorkOrder where
  work_order_id : String
  asset_id : String
  work_order_type : String
  priority : String
  status : String
  createdDay : Nat
  createdHour : Nat
  createdMin : Nat
  scheduled_date : Nat
  completed_date : Option Nat
  technician_name : String
  description : String
  labor_hours : Option ℚ
  parts_cost_usd : Option ℚ
  downtime_hours : Option ℚ

/-- Iteration `i` of the `for i in range(500)` work-order loop. -/
def mkWorkOrder (assetIds : List String) (i : Nat) (c : WoChoice) : WorkOrder :=
  let wo_type := WORK_ORDER_TYPES.getD c.typeIdx ""
  let priority := if wo_type = "Emergency Repair"
    then EMERGENCY_PRIORITIES.getD c.emergPrioIdx ""
    else PRIORITIES.getD c.prioIdx ""
  let status := WO_STATUSES.getD c.statusIdx ""
  let scheduled := if wo_type = "Emergency Repair"
    then c.createdDay
    else c.createdDay + c.schedOffset
  { work_order_id := "WO-" ++ padZeros 6 (i + 1)
    asset_id := assetIds.getD c.assetIdx ""
    work_order_type := wo_type
    priority := priority
    status := status
    createdDay := c.createdDay
    createdHour := c.createdHour
    createdMin := c.createdMin
    scheduled_date := scheduled
    completed_date := if status = "Completed" then some (scheduled + c.complOffset) else none
    technician_name := TECHNICIANS.getD c.techIdx ""
    description := (WORK_DESCRIPTIONS wo_type).getD c.descIdx ""
    labor_hours :=
      if status = "Completed" then some c.laborCompleted
      else if status = "In Progress" then some c.laborInProgress
      else none
    parts_cost_usd :=
      if status = "Completed" then
        some (if wo_type = "Corrective Repair" ∨ wo_type = "Emergency Repair" ∨
                wo_type = "Preventive Maintenance" then c.partsCost else 0)
      else none
    downtime_hours :=
      if status = "Completed" then
        some (if wo_type = "Corrective Repair" ∨ wo_type = "Emergency Repair"
              then c.downtime else 0)
      else none }

/-- The whole `work_order_rows` batch: `for i in range(500)`. -/
def workOrderRows (assetIds : List String) (cs : Nat → WoChoice) : List WorkOrder :=
  (List.range 500).map (fun i => mkWorkOrder assetIds i (cs i))

def CONTRACT_TYPES : List String := ["Service Agreement", "Parts Supply", "Extended Warranty"]

/-- Inline population of the `duration_years` draw. -/
def DURATION_YEARS : List Nat := [1, 2, 3, 5]

/-- Inline population of the `sla_hours` draw. -/
def SLA_HOURS : List Nat := [2, 4, 4, 8, 8, 24]

def first_names : List String :=
  ["John", "Maria", "David", "Sarah", "Kenji", "Hans", "Priya", "Wei", "Carlos", "Anna"]

def last_names : List String :=
  ["Mueller", "Santos", "Park", "Williams", "Tanaka", "Fischer", "Sharma", "Chang",
   "Rodriguez", "Johansson"]

/-- `today = date(2026, 2, 17)` as a day offset from the contract base date
`date(2023, 1, 1)`: 365 + 366 + 365 = 1096 days up to 2026-01-01, plus
31 + 16 = 47 days to Feb 17. -/
def contractTodayOffset : Int := 1143

/-- The status derivation inlined in the contract loop:
`Expired` if `end < today`, else `Expiring Soon` if `(end - today).days < 90`,
else `Active`. -/
def contractStatus (endD today : Int) : String :=
  if endD < today then "Expired"
  else if endD - today < 90 then "Expiring Soon"
  else "Active"

/-- One random draw per field of the contract loop, in program order. -/
structure CtrChoice where
  typeIdx : Nat       -- random.choice(CONTRACT_TYPES)
  startOffset : Nat   -- randint(0, 365)
  durationIdx : Nat   -- random.choice([1, 2, 3, 5])
  annualValue : ℚ     -- round(random.uniform(25000, 350000), 2)
  slaIdx : Nat        -- random.choice([2, 4, 4, 8, 8, 24])

/-- Contracts of the random primitives consumed per manufacturer contract. -/
def CtrChoice.Valid (c : CtrChoice) : Prop :=
  c.typeIdx < CONTRACT_TYPES.length ∧
  c.startOffset ≤ 365 ∧
  c.durationIdx < DURATION_YEARS.length ∧
  25000 ≤ c.annualValue ∧ c.annualValue ≤ 350000 ∧
  c.slaIdx < SLA_HOURS.length

/-- One row of `contracts_data`; dates are day offsets from `date(2023, 1, 1)`. -/
structure ManufacturerContract where
  contract_id : String
  manufacturer : String
  contract_type : String
  startD : Int
  endD : Int
  annual_value_usd : ℚ
  sla_response_hours : Nat
  contract_status : String
  primary_contact : String
  contact_email : String

/-- Iteration `i` of `for i, manufacturer in enumerate(MANUFACTURERS)`. -/
def mkContract (i : Nat) (c : CtrChoice) : ManufacturerContract :=
  let manufacturer := MANUFACTURERS.getD i ""
  let startD : Int := c.startOffset
  let endD : Int := startD + (DURATION_YEARS.getD c.durationIdx 0 : Int) * 365
  let contact_name := first_names.getD i "" ++ " " ++ last_names.getD i ""
  let domain := (((manufacturer.toLower).replace " " "").replace "." "").take 12
  { contract_id := "CTR-" ++ padZeros 4 (i + 1)
    manufacturer := manufacturer
    contract_type := CONTRACT_TYPES.getD c.typeIdx ""
    startD := startD
    endD := endD
    annual_value_usd := c.annualValue
    sla_response_hours := SLA_HOURS.getD c.slaIdx 0
    contract_status := contractStatus endD contractTodayOffset
    primary_contact := contact_name
    contact_email := ((contact_name.toLower).replace " " ".") ++ "@" ++ domain ++ ".com" }

/-- The whole `contracts_data` batch: one contract per manufacturer. -/
def contractsData (cs : Nat → CtrChoice) : List ManufacturerContract :=
  (List.range MANUFACTURERS.length).map (fun i => mkContract i (cs i))

end DataGen

/-- The asset-id set the reference run must produce (C6's scenario):
`AST-000001` through `AST-000120`, written out literally. -/
def expectedAssetIds : List String := [
  "AST-000001", "AST-000002", "AST-000003", "AST-000004", "AST-000005", "AST-000006",
  "AST-000007", "AST-000008", "AST-000009", "AST-000010", "AST-000011", "AST-000012",
  "AST-000013", "AST-000014", "AST-000015", "AST-000016", "AST-000017", "AST-000018",
  "AST-000019", "AST-000020", "AST-000021", "AST-000022", "AST-000023", "AST-000024",
  "AST-000025", "AST-000026", "AST-000027", "AST-000028", "AST-000029", "AST-000030",
  "AST-000031", "AST-000032", "AST-000033", "AST-000034", "AST-000035", "AST-000036",
  "AST-000037", "AST-000038", "AST-000039", "AST-000040", "AST-000041", "AST-000042",
  "AST-000043", "AST-000044", "AST-000045", "AST-000046", "AST-000047", "AST-000048",
  "AST-000049", "AST-000050", "AST-000051", "AST-000052", "AST-000053", "AST-000054",
  "AST-000055", "AST-000056", "AST-000057", "AST-000058", "AST-000059", "AST-000060",
  "AST-000061", "AST-000062", "AST-000063", "AST-000064", "AST-000065", "AST-000066",
  "AST-000067", "AST-000068", "AST-000069", "AST-000070", "AST-000071", "AST-000072",
  "AST-000073", "AST-000074", "AST-000075", "AST-000076", "AST-000077", "AST-000078",
  "AST-000079", "AST-000080", "AST-000081", "AST-000082", "AST-000083", "AST-000084",
  "AST-000085", "AST-000086", "AST-000087", "AST-000088", "AST-000089", "AST-000090",
  "AST-000091", "AST-000092", "AST-000093", "AST-000094", "AST-000095", "AST-000096",
  "AST-000097", "AST-000098", "AST-000099", "AST-000100", "AST-000101", "AST-000102",
  "AST-000103", "AST-000104", "AST-000105", "AST-000106", "AST-000107", "AST-000108",
  "AST-000109", "AST-000110", "AST-000111", "AST-000112", "AST-000113", "AST-000114",
  "AST-000115", "AST-000116", "AST-000117", "AST-000118", "AST-000119", "AST-000120"
]

/- Concrete choice records used by the closed witness statements. -/

/-- A concrete valid draw record for one certification document. -/
def docChoice0 : PdfGen.DocChoice :=
  { eqIdx := 0, mfrIdx := 0, modelNum := 1000, modelLetterIdx := 0, modelDigit := 1,
    certYear := 2024, certNum := 100000, matIdx := 0, safetyIdx := 0, ipIdx := 0,
    standards := ["UL", "CSA", "IEC 61439"], weightKg := 3, voltIdx := 0,
    tempMinIdx := 0, tempMaxIdx := 0, statusIdx := 1, reportMonth := 1, reportDay := 1,
    numTests := 7, selectedTests := PdfGen.TEST_NAMES.take 7,
    testResults := ["PASS", "PASS", "FAIL", "PASS", "PASS", "PASS", "PASS"] }

/-- A concrete valid draw record for one inventory row. -/
def invChoice0 : DataGen.InvChoice :=
  { eqIdx := 0, mfrIdx := 0, modelNum := 1000, modelLetterIdx := 0, modelDigit := 1,
    facIdx := 0, purchaseOffset := 0, warrantyIdx := 0, inspOffset := 30,
    nextInspIdx := 0, purchasePrice := 2500, serialYear := 2020, voltIdx := 0,
    ipIdx := 0, statusIdx := 0, locIdx := 0 }

/-- A concrete valid draw record for one work order (an Emergency Repair that
was Completed). -/
def woChoice0 : DataGen.WoChoice :=
  { assetIdx := 0, typeIdx := 8, prioIdx := 0, emergPrioIdx := 0, statusIdx := 0,
    createdDay := 0, createdHour := 6, createdMin := 0, schedOffset := 3,
    complOffset := 0, laborCompleted := 1, partsCost := 100, downtime := 2,
    laborInProgress := 1, techIdx := 0, descIdx := 0 }

/-- A concrete valid draw record for a work order left Open. -/
def woChoiceOpen : DataGen.WoChoice :=
  { assetIdx := 0, typeIdx := 0, prioIdx := 0, emergPrioIdx := 0, statusIdx := 5,
    createdDay := 0, createdHour := 6, createdMin := 0, schedOffset := 3,
    complOffset := 0, laborCompleted := 1, partsCost := 100, downtime := 2,
    laborInProgress := 1, techIdx := 0, descIdx := 0 }

/-- A concrete valid draw record for one manufacturer contract. -/
def ctrChoice0 : DataGen.CtrChoice :=
  { typeIdx := 0, startOffset := 0, durationIdx := 0, annualValue := 25000, slaIdx := 0 }

/-- Constant choice streams used by the closed witness statements. -/
def invStream0 : Nat → DataGen.InvChoice := fun _ => invChoice0

def woStream0 : Nat → DataGen.WoChoice := fun _ => woChoice0

def ctrStream0 : Nat → DataGen.CtrChoice := fun _ => ctrChoice0

/- Helper lemmas shared by the claim theorems. -/

theorem getD_mem {α : Type} (l : List α) (i : Nat) (d : α) (h : i < l.length) :
    l.getD i d ∈ l := by
  induction l generalizing i with
  | nil => simp at h
  | cons a t ih =>
    cases i with
    | zero => exact List.mem_cons_self a t
    | succ j => exact List.mem_cons_of_mem a (ih j (by simpa using h))

theorem count_pass_add_count_fail (rows : List PdfGen.TestRow)
    (h : ∀ r ∈ rows, r.result = "PASS" ∨ r.result = "FAIL") :
    (rows.filter (fun r => r.result = "PASS")).length +
      (rows.filter (fun r => r.result = "FAIL")).length = rows.length := by
  induction rows with
  | nil => rfl
  | cons a t ih =>
    have ht : ∀ r ∈ t, r.result = "PASS" ∨ r.result = "FAIL" :=
      fun r hr => h r (List.mem_cons_of_mem a hr)
    rcases h a (List.mem_cons_self a t) with ha | ha <;>
      simp [List.filter_cons, ha, ← ih ht] <;> omega

theorem mkTestRows_length (names results : List String) :
    (PdfGen.mkTestRows names results).length = min names.length results.length := by
  simp [PdfGen.mkTestRows]

theorem mkTestRows_result_mem {names results : List String} {r : PdfGen.TestRow}
    (hr : r ∈ PdfGen.mkTestRows names results) : r.result ∈ results := by
  simp only [PdfGen.mkTestRows, List.mem_map] at hr
  obtain ⟨p, hp, rfl⟩ := hr
  exact (List.of_mem_zip hp).2

theorem mkTestRows_name_mem {names results : List String} {r : PdfGen.TestRow}
    (hr : r ∈ PdfGen.mkTestRows names results) : r.name ∈ names := by
  simp only [PdfGen.mkTestRows, List.mem_map] at hr
  obtain ⟨p, hp, rfl⟩ := hr
  exact (List.of_mem_zip hp).1

theorem mkTestRows_map_name (names results : List String)
    (h : names.length ≤ results.length) :
    (PdfGen.mkTestRows names results).map (fun r => r.name) = names := by
  simp only [PdfGen.mkTestRows, List.map_map]
  exact List.map_fst_zip names results h

theorem generateEquipmentPdf_testRows (c : PdfGen.DocChoice) :
    (PdfGen.generateEquipmentPdf c).testRows =
      PdfGen.mkTestRows c.selectedTests c.testResults := rfl

theorem generateEquipmentPdf_summary (c : PdfGen.DocChoice) :
    (PdfGen.generateEquipmentPdf c).summary =
      PdfGen.mkSummary (PdfGen.mkTestRows c.selectedTests c.testResults) := rfl

theorem mkSummary_total_tests (rows : List PdfGen.TestRow) :
    (PdfGen.mkSummary rows).total_tests = rows.length := rfl

theorem mkSummary_passed (rows : List PdfGen.TestRow) :
    (PdfGen.mkSummary rows).passed =
      (rows.filter (fun r => r.result = "PASS")).length := rfl

theorem mkSummary_failed (rows : List PdfGen.TestRow) :
    (PdfGen.mkSummary rows).failed =
      rows.length - (rows.filter (fun r => r.result = "PASS")).length := rfl

theorem docChoice0_valid : docChoice0.Valid := by
  unfold PdfGen.DocChoice.Valid docChoice0
  norm_num
  decide

/- Claim theorems. -/

/-- C1: for every generated certification document, the roll-up satisfies
`total_tests = passed + failed` where `passed` counts the generated test rows
whose result is PASS and `failed` those whose result is FAIL, and the printed
pass rate is `round(passed / total_tests * 100, 1)` whenever
`total_tests > 0`. -/
theorem c1_cert_summary_rollup (c : PdfGen.DocChoice) (h : c.Valid) :
    (PdfGen.generateEquipmentPdf c).summary.total_tests =
        (PdfGen.generateEquipmentPdf c).summary.passed +
        (PdfGen.generateEquipmentPdf c).summary.failed ∧
    (PdfGen.generateEquipmentPdf c).summary.passed =
        ((PdfGen.generateEquipmentPdf c).testRows.filter
          (fun r => r.result = "PASS")).length ∧
    (PdfGen.generateEquipmentPdf c).summary.failed =
        ((PdfGen.generateEquipmentPdf c).testRows.filter
          (fun r => r.result = "FAIL")).length ∧
    (0 < (PdfGen.generateEquipmentPdf c).summary.total_tests →
      (PdfGen.generateEquipmentPdf c).summary.pass_rate =
        pyRound1 (((PdfGen.generateEquipmentPdf c).summary.passed : ℚ) /
          ((PdfGen.generateEquipmentPdf c).summary.total_tests : ℚ) * 100)) := by
  obtain ⟨_, _, _, _, _, _, _, _, _, _, _, _, _, _, _, _, _, _, _, _, _, _, _, _,
    _, _, _, _, _, _, _, _, _, _, hres⟩ := h
  have hmem : ∀ r ∈ PdfGen.mkTestRows c.selectedTests c.testResults,
      r.result = "PASS" ∨ r.result = "FAIL" :=
    fun r hr => hres r.result (mkTestRows_result_mem hr)
  have hpart := count_pass_add_count_fail _ hmem
  have hle := List.length_filter_le (fun r => r.result = "PASS")
    (PdfGen.mkTestRows c.selectedTests c.testResults)
  refine ⟨?_, rfl, ?_, fun _ => rfl⟩
  · rw [generateEquipmentPdf_summary, mkSummary_total_tests, mkSummary_passed,
      mkSummary_failed]
    omega
  · rw [generateEquipmentPdf_summary, generateEquipmentPdf_testRows,
      mkSummary_failed]
    omega

/-- C1 witness: the roll-up identity evaluated at the concrete document
draw `docChoice0`. -/
theorem c1_cert_summary_rollup_witness :
    (PdfGen.generateEquipmentPdf docChoice0).summary.total_tests =
      (PdfGen.generateEquipmentPdf docChoice0).summary.passed +
      (PdfGen.generateEquipmentPdf docChoice0).summary.failed :=
  (c1_cert_summary_rollup docChoice0 docChoice0_valid).1

/-- C4: the certification status is drawn from the population
`["PASS", "CONDITIONAL", "PASS", "PASS"]` with weights `[6, 2, 1, 1]`, i.e.
the categorical distribution PASS ↦ 8/10, CONDITIONAL ↦ 2/10; every possible
draw is exactly PASS or CONDITIONAL, never any other value. -/
theorem c4_cert_status_distribution (c : PdfGen.DocChoice) (h : c.Valid) :
    ((PdfGen.generateEquipmentPdf c).certification_status = "PASS" ∨
      (PdfGen.generateEquipmentPdf c).certification_status = "CONDITIONAL") ∧
    PdfGen.certStatusWeightOf "PASS" = 8 ∧
    PdfGen.certStatusWeightOf "CONDITIONAL" = 2 ∧
    PdfGen.certStatusWeights.sum = 10 ∧
    (∀ s ∈ PdfGen.certStatusPopulation, s = "PASS" ∨ s = "CONDITIONAL") := by
  obtain ⟨_, _, _, _, _, _, _, _, _, _, _, _, _, _, _, _, _, _, _, _, _, _, _,
    hstat, _⟩ := h
  refine ⟨?_, by decide, by decide, by decide, by decide⟩
  have hs : (PdfGen.generateEquipmentPdf c).certification_status =
      PdfGen.certStatusPopulation.getD c.statusIdx "" := rfl
  have h4 : c.statusIdx < 4 := hstat
  rw [hs]
  interval_cases c.statusIdx <;> decide

/-- C4 witness: the status drawn at the concrete document draw `docChoice0`
is one of PASS and CONDITIONAL. -/
theorem c4_cert_status_distribution_witness :
    (PdfGen.generateEquipmentPdf docChoice0).certification_status = "PASS" ∨
    (PdfGen.generateEquipmentPdf docChoice0).certification_status = "CONDITIONAL" :=
  (c4_cert_status_distribution docChoice0 docChoice0_valid).1

/-- C5: every generated document has between 7 and 12 test-result rows,
sampled without replacement from the fixed 14-name catalog — so the test
names within one document are pairwise distinct — and `total_tests ≥ 7 > 0`,
so the unguarded pass-rate division never divides by zero. -/
theorem c5_test_row_bounds (c : PdfGen.DocChoice) (h : c.Valid) :
    7 ≤ (PdfGen.generateEquipmentPdf c).summary.total_tests ∧
    (PdfGen.generateEquipmentPdf c).summary.total_tests ≤ 12 ∧
    ((PdfGen.generateEquipmentPdf c).testRows.map (fun r => r.name)).Nodup ∧
    (∀ r ∈ (PdfGen.generateEquipmentPdf c).testRows, r.name ∈ PdfGen.TEST_NAMES) ∧
    0 < (PdfGen.generateEquipmentPdf c).summary.total_tests := by
  obtain ⟨_, _, _, _, _, _, _, _, _, _, _, _, _, _, _, _, _, _, _, _, _, _, _, _,
    _, _, _, _, h7, h12, hlen, hnodup, hselmem, hreslen, _⟩ := h
  have h14 : PdfGen.TEST_NAMES.length = 14 := rfl
  have hlen' : c.selectedTests.length = c.numTests := by rw [hlen, h14]; omega
  have htot : (PdfGen.generateEquipmentPdf c).summary.total_tests = c.numTests := by
    rw [generateEquipmentPdf_summary, mkSummary_total_tests, mkTestRows_length,
      hreslen, hlen']
    omega
  refine ⟨by omega, by omega, ?_, ?_, by omega⟩
  · rw [generateEquipmentPdf_testRows, mkTestRows_map_name _ _ (le_of_eq hreslen.symm)]
    exact hnodup
  · intro r hr
    exact hselmem _ (mkTestRows_name_mem (generateEquipmentPdf_testRows c ▸ hr))

/-- C5 witness: a positive row count at the concrete draw `docChoice0`. -/
theorem c5_test_row_bounds_witness :
    0 < (PdfGen.generateEquipmentPdf docChoice0).summary.total_tests :=
  (c5_test_row_bounds docChoice0 docChoice0_valid).2.2.2.2

/- Projection lemmas for `mkWorkOrder` (all definitional). -/

theorem mkWorkOrder_asset_id (aids : List String) (i : Nat) (c : DataGen.WoChoice) :
    (DataGen.mkWorkOrder aids i c).asset_id = aids.getD c.assetIdx "" := rfl

theorem mkWorkOrder_type (aids : List String) (i : Nat) (c : DataGen.WoChoice) :
    (DataGen.mkWorkOrder aids i c).work_order_type =
      DataGen.WORK_ORDER_TYPES.getD c.typeIdx "" := rfl

theorem mkWorkOrder_priority (aids : List String) (i : Nat) (c : DataGen.WoChoice) :
    (DataGen.mkWorkOrder aids i c).priority =
      (if DataGen.WORK_ORDER_TYPES.getD c.typeIdx "" = "Emergency Repair"
       then DataGen.EMERGENCY_PRIORITIES.getD c.emergPrioIdx ""
       else DataGen.PRIORITIES.getD c.prioIdx "") := rfl

theorem mkWorkOrder_status (aids : List String) (i : Nat) (c : DataGen.WoChoice) :
    (DataGen.mkWorkOrder aids i c).status = DataGen.WO_STATUSES.getD c.statusIdx "" := rfl

theorem mkWorkOrder_createdDay (aids : List String) (i : Nat) (c : DataGen.WoChoice) :
    (DataGen.mkWorkOrder aids i c).createdDay = c.createdDay := rfl

theorem mkWorkOrder_scheduled (aids : List String) (i : Nat) (c : DataGen.WoChoice) :
    (DataGen.mkWorkOrder aids i c).scheduled_date =
      (if DataGen.WORK_ORDER_TYPES.getD c.typeIdx "" = "Emergency Repair"
       then c.createdDay else c.createdDay + c.schedOffset) := rfl

theorem mkWorkOrder_labor (aids : List String) (i : Nat) (c : DataGen.WoChoice) :
    (DataGen.mkWorkOrder aids i c).labor_hours =
      (if DataGen.WO_STATUSES.getD c.statusIdx "" = "Completed" then some c.laborCompleted
       else if DataGen.WO_STATUSES.getD c.statusIdx "" = "In Progress"
       then some c.laborInProgress
       else none) := rfl

theorem mkWorkOrder_parts (aids : List String) (i : Nat) (c : DataGen.WoChoice) :
    (DataGen.mkWorkOrder aids i c).parts_cost_usd =
      (if DataGen.WO_STATUSES.getD c.statusIdx "" = "Completed" then
        some (if DataGen.WORK_ORDER_TYPES.getD c.typeIdx "" = "Corrective Repair" ∨
                DataGen.WORK_ORDER_TYPES.getD c.typeIdx "" = "Emergency Repair" ∨
                DataGen.WORK_ORDER_TYPES.getD c.typeIdx "" = "Preventive Maintenance"
              then c.partsCost else 0)
       else none) := rfl

theorem mkWorkOrder_downtime (aids : List String) (i : Nat) (c : DataGen.WoChoice) :
    (DataGen.mkWorkOrder aids i c).downtime_hours =
      (if DataGen.WO_STATUSES.getD c.statusIdx "" = "Completed" then
        some (if DataGen.WORK_ORDER_TYPES.getD c.typeIdx "" = "Corrective Repair" ∨
                DataGen.WORK_ORDER_TYPES.getD c.typeIdx "" = "Emergency Repair"
              then c.downtime else 0)
       else none) := rfl

/-- C7: an Emergency Repair work order takes its priority from the
`["Critical", "Critical", "High"]` override draw (Critical weighted 2:1 over
High), so its priority is Critical or High, and it is scheduled on its
creation date; every other work-order type is scheduled 0–14 days after the
creation date. -/
theorem c7_emergency_repair (aids : List String) (i : Nat) (c : DataGen.WoChoice)
    (h : DataGen.WoChoice.Valid aids.length c) :
    ((DataGen.mkWorkOrder aids i c).work_order_type = "Emergency Repair" →
      ((DataGen.mkWorkOrder aids i c).priority = "Critical" ∨
        (DataGen.mkWorkOrder aids i c).priority = "High") ∧
      (DataGen.mkWorkOrder aids i c).scheduled_date =
        (DataGen.mkWorkOrder aids i c).createdDay) ∧
    ((DataGen.mkWorkOrder aids i c).work_order_type ≠ "Emergency Repair" →
      (DataGen.mkWorkOrder aids i c).scheduled_date =
        (DataGen.mkWorkOrder aids i c).createdDay + c.schedOffset ∧
      c.schedOffset ≤ 14) ∧
    DataGen.EMERGENCY_PRIORITIES.count "Critical" = 2 ∧
    DataGen.EMERGENCY_PRIORITIES.count "High" = 1 := by
  obtain ⟨_, _, _, hemerg, _, _, _, _, _, hsched, _⟩ := h
  refine ⟨fun ht => ?_, fun ht => ?_, by decide, by decide⟩
  · rw [mkWorkOrder_type] at ht
    constructor
    · rw [mkWorkOrder_priority, if_pos ht]
      have h3 : c.emergPrioIdx < 3 := hemerg
      interval_cases c.emergPrioIdx <;> decide
    · rw [mkWorkOrder_scheduled, mkWorkOrder_createdDay, if_pos ht]
  · rw [mkWorkOrder_type] at ht
    rw [mkWorkOrder_scheduled, mkWorkOrder_createdDay, if_neg ht]
    exact ⟨rfl, hsched⟩

/-- C8: work orders left Open or Cancelled carry no labor hours, parts cost
or downtime; In Progress orders carry only labor hours; Completed orders
carry all three. -/
theorem c8_effort_fields_by_status (aids : List String) (i : Nat)
    (c : DataGen.WoChoice) :
    (((DataGen.mkWorkOrder aids i c).status = "Open" ∨
       (DataGen.mkWorkOrder aids i c).status = "Cancelled") →
      (DataGen.mkWorkOrder aids i c).labor_hours = none ∧
      (DataGen.mkWorkOrder aids i c).parts_cost_usd = none ∧
      (DataGen.mkWorkOrder aids i c).downtime_hours = none) ∧
    ((DataGen.mkWorkOrder aids i c).status = "In Progress" →
      (DataGen.mkWorkOrder aids i c).labor_hours = some c.laborInProgress ∧
      (DataGen.mkWorkOrder aids i c).parts_cost_usd = none ∧
      (DataGen.mkWorkOrder aids i c).downtime_hours = none) ∧
    ((DataGen.mkWorkOrder aids i c).status = "Completed" →
      (∃ q, (DataGen.mkWorkOrder aids i c).labor_hours = some q) ∧
      (∃ q, (DataGen.mkWorkOrder aids i c).parts_cost_usd = some q) ∧
      (∃ q, (DataGen.mkWorkOrder aids i c).downtime_hours = some q)) := by
  refine ⟨fun hst => ?_, fun hst => ?_, fun hst => ?_⟩
  · rw [mkWorkOrder_status] at hst
    rcases hst with hst | hst <;>
      rw [mkWorkOrder_labor, mkWorkOrder_parts, mkWorkOrder_downtime, hst] <;>
      refine ⟨?_, ?_, ?_⟩ <;>
      rw [if_neg (by decide)] <;>
      try rw [if_neg (by decide)]
  · rw [mkWorkOrder_status] at hst
    rw [mkWorkOrder_labor, mkWorkOrder_parts, mkWorkOrder_downtime, hst]
    exact ⟨by rw [if_neg (by decide), if_pos rfl], by rw [if_neg (by decide)],
      by rw [if_neg (by decide)]⟩
  · rw [mkWorkOrder_status] at hst
    rw [mkWorkOrder_labor, mkWorkOrder_parts, mkWorkOrder_downtime, hst]
    exact ⟨⟨_, by rw [if_pos rfl]⟩, ⟨_, by rw [if_pos rfl]⟩, ⟨_, by rw [if_pos rfl]⟩⟩

/-- C10: on Completed work orders the populated cost/effort fields obey the
type-dependent zero rule: `parts_cost_usd` is exactly 0 (not null) for
Inspection and Calibration and is the (rounded) uniform `[0, 4500]` draw
otherwise, and `downtime_hours` is exactly 0 (not null) for every type other
than Corrective Repair and Emergency Repair, for which it is the (rounded)
uniform `[0, 8]` draw. -/
theorem c10_completed_zero_rule (aids : List String) (i : Nat) (c : DataGen.WoChoice)
    (h : DataGen.WoChoice.Valid aids.length c)
    (hst : (DataGen.mkWorkOrder aids i c).status = "Completed") :
    (((DataGen.mkWorkOrder aids i c).work_order_type = "Inspection" ∨
       (DataGen.mkWorkOrder aids i c).work_order_type = "Calibration") →
      (DataGen.mkWorkOrder aids i c).parts_cost_usd = some 0) ∧
    (¬((DataGen.mkWorkOrder aids i c).work_order_type = "Inspection" ∨
        (DataGen.mkWorkOrder aids i c).work_order_type = "Calibration") →
      (DataGen.mkWorkOrder aids i c).parts_cost_usd = some c.partsCost ∧
      0 ≤ c.partsCost ∧ c.partsCost ≤ 4500) ∧
    (((DataGen.mkWorkOrder aids i c).work_order_type = "Corrective Repair" ∨
       (DataGen.mkWorkOrder aids i c).work_order_type = "Emergency Repair") →
      (DataGen.mkWorkOrder aids i c).downtime_hours = some c.downtime ∧
      0 ≤ c.downtime ∧ c.downtime ≤ 8) ∧
    (¬((DataGen.mkWorkOrder aids i c).work_order_type = "Corrective Repair" ∨
        (DataGen.mkWorkOrder aids i c).work_order_type = "Emergency Repair") →
      (DataGen.mkWorkOrder aids i c).downtime_hours = some 0) := by
  obtain ⟨_, htype, _, _, _, _, _, _, _, _, _, _, _, hp0, hp45, hd0, hd8, _⟩ := h
  have h9 : c.typeIdx < 9 := htype
  rw [mkWorkOrder_status] at hst
  refine ⟨fun h1 => ?_, fun h1 => ?_, fun h1 => ?_, fun h1 => ?_⟩
  · rw [mkWorkOrder_type] at h1
    rw [mkWorkOrder_parts, if_pos hst]
    rcases h1 with h1 | h1 <;> rw [h1, if_neg (by decide)]
  · rw [mkWorkOrder_type] at h1
    rw [mkWorkOrder_parts, if_pos hst]
    have hcond : DataGen.WORK_ORDER_TYPES.getD c.typeIdx "" = "Corrective Repair" ∨
        DataGen.WORK_ORDER_TYPES.getD c.typeIdx "" = "Emergency Repair" ∨
        DataGen.WORK_ORDER_TYPES.getD c.typeIdx "" = "Preventive Maintenance" := by
      interval_cases c.typeIdx <;> first | decide | exact absurd (by decide) h1
    rw [if_pos hcond]
    exact ⟨rfl, hp0, hp45⟩
  · rw [mkWorkOrder_type] at h1
    rw [mkWorkOrder_downtime, if_pos hst]
    rw [if_pos h1]
    exact ⟨rfl, hd0, hd8⟩
  · rw [mkWorkOrder_type] at h1
    rw [mkWorkOrder_downtime, if_pos hst, if_neg h1]

/- Projection lemmas for `mkInvRow` (all definitional). -/

theorem mkInvRow_asset_id (i : Nat) (c : DataGen.InvChoice) :
    (DataGen.mkInvRow i c).asset_id = "AST-" ++ padZeros 6 (i + 1) := rfl

theorem mkInvRow_facility_id (i : Nat) (c : DataGen.InvChoice) :
    (DataGen.mkInvRow i c).facility_id = DataGen.facility_ids.getD c.facIdx "" := rfl

theorem asset_ids_length (ics : Nat → DataGen.InvChoice) :
    (DataGen.asset_ids ics).length = 120 := by
  simp [DataGen.asset_ids, DataGen.inventoryRows]

/-- C2: referential soundness of every generated batch: the facility batch
has exactly 8 records, every generated InventoryAsset's `facility_id` is the
id of one of them, and every generated WorkOrder's `asset_id` is the
`asset_id` of an InventoryAsset generated in the same batch. -/
theorem c2_referential_soundness (ics : Nat → DataGen.InvChoice)
    (wcs : Nat → DataGen.WoChoice)
    (hi : ∀ n, (ics n).Valid)
    (hw : ∀ n, DataGen.WoChoice.Valid (DataGen.asset_ids ics).length (wcs n)) :
    DataGen.facilitiesData.length = 8 ∧
    (∀ a ∈ DataGen.inventoryRows ics, a.facility_id ∈ DataGen.facility_ids) ∧
    (∀ w ∈ DataGen.workOrderRows (DataGen.asset_ids ics) wcs,
        w.asset_id ∈ DataGen.asset_ids ics) := by
  refine ⟨rfl, ?_, ?_⟩
  · intro a ha
    simp only [DataGen.inventoryRows, List.mem_map, List.mem_range] at ha
    obtain ⟨i, _, rfl⟩ := ha
    obtain ⟨_, _, _, _, _, _, _, hfac, _⟩ := hi i
    rw [mkInvRow_facility_id]
    exact getD_mem _ _ _ hfac
  · intro w hwmem
    simp only [DataGen.workOrderRows, List.mem_map, List.mem_range] at hwmem
    obtain ⟨i, _, rfl⟩ := hwmem
    obtain ⟨hassets, _⟩ := hw i
    rw [mkWorkOrder_asset_id]
    exact getD_mem _ _ _ hassets

theorem mkContract_contract_status (i : Nat) (c : DataGen.CtrChoice) :
    (DataGen.mkContract i c).contract_status =
      DataGen.contractStatus (DataGen.mkContract i c).endD
        DataGen.contractTodayOffset := by
  simp only [DataGen.mkContract]

/-- C3: a generated contract's status is the pure function of its end date
and the fixed reference `today = 2026-02-17`: Expired when `end < today`,
Expiring Soon when `0 ≤ end − today < 90` days, Active otherwise; at the
boundaries, `end = today` gives Expiring Soon and `end = today + 90` days
gives Active.  The last conjunct ties the generator to this function at the
fixed reference day. -/
theorem c3_contract_status_derivation (endD today : Int) :
    (endD < today → DataGen.contractStatus endD today = "Expired") ∧
    (0 ≤ endD - today → endD - today < 90 →
        DataGen.contractStatus endD today = "Expiring Soon") ∧
    (90 ≤ endD - today → DataGen.contractStatus endD today = "Active") ∧
    DataGen.contractStatus today today = "Expiring Soon" ∧
    DataGen.contractStatus (today + 90) today = "Active" ∧
    (∀ (i : Nat) (c : DataGen.CtrChoice),
        (DataGen.mkContract i c).contract_status =
          DataGen.contractStatus (DataGen.mkContract i c).endD
            DataGen.contractTodayOffset) := by
  refine ⟨fun h1 => ?_, fun h0 h90 => ?_, fun h90 => ?_, ?_, ?_,
    fun i c => mkContract_contract_status i c⟩
  · simp only [DataGen.contractStatus]
    rw [if_pos h1]
  · simp only [DataGen.contractStatus]
    rw [if_neg (by omega), if_pos (by omega)]
  · simp only [DataGen.contractStatus]
    rw [if_neg (by omega), if_neg (by omega)]
  · simp only [DataGen.contractStatus]
    rw [if_neg (by omega), if_pos (by omega)]
  · simp only [DataGen.contractStatus]
    rw [if_neg (by omega), if_neg (by omega)]

/-- C3 witness: the three status regions and both boundaries, evaluated at
the generator's fixed reference day 1143 (2026-02-17 from 2023-01-01). -/
theorem c3_contract_status_derivation_witness :
    DataGen.contractStatus 1142 1143 = "Expired" ∧
    DataGen.contractStatus 1143 1143 = "Expiring Soon" ∧
    DataGen.contractStatus 1232 1143 = "Expiring Soon" ∧
    DataGen.contractStatus 1233 1143 = "Active" :=
  ⟨(c3_contract_status_derivation 1142 1143).1 (by norm_num),
   (c3_contract_status_derivation 1143 1143).2.2.2.1,
   (c3_contract_status_derivation 1232 1143).2.1 (by norm_num) (by norm_num),
   (c3_contract_status_derivation 1233 1143).2.2.1 (by norm_num)⟩

/-- C9: the reference vocabularies of the Document Generator — manufacturer
names, equipment-type-name/prefix-code pairs, the voltage list and the
IP-rating list — are element-for-element identical string literals to the
corresponding lists of the Dataset Generator. -/
theorem c9_shared_vocabularies :
    PdfGen.MANUFACTURERS = DataGen.MANUFACTURERS ∧
    PdfGen.EQUIPMENT_TYPES = DataGen.EQUIPMENT_TYPES ∧
    PdfGen.VOLTAGES = DataGen.VOLTAGES ∧
    PdfGen.IP_RATINGS = DataGen.IP_RATINGS :=
  ⟨rfl, rfl, rfl, rfl⟩

/-- C6: the tabular batches are pure functions of the seeded random stream —
two runs whose streams agree produce field-for-field identical batches — and
every run's inventory batch carries exactly the asset ids
`AST-000001 … AST-000120`. -/
theorem c6_seed_determinism (ics ics' : Nat → DataGen.InvChoice)
    (wcs wcs' : Nat → DataGen.WoChoice) (ccs ccs' : Nat → DataGen.CtrChoice)
    (h1 : ∀ n, ics n = ics' n) (h2 : ∀ n, wcs n = wcs' n)
    (h3 : ∀ n, ccs n = ccs' n) :
    DataGen.inventoryRows ics = DataGen.inventoryRows ics' ∧
    DataGen.workOrderRows (DataGen.asset_ids ics) wcs =
      DataGen.workOrderRows (DataGen.asset_ids ics') wcs' ∧
    DataGen.contractsData ccs = DataGen.contractsData ccs' ∧
    DataGen.asset_ids ics = expectedAssetIds := by
  have e1 : ics = ics' := funext h1
  have e2 : wcs = wcs' := funext h2
  have e3 : ccs = ccs' := funext h3
  subst e1
  subst e2
  subst e3
  refine ⟨rfl, rfl, rfl, ?_⟩
  have hmap : DataGen.asset_ids ics =
      (List.range 120).map (fun i => "AST-" ++ padZeros 6 (i + 1)) := by
    simp only [DataGen.asset_ids, DataGen.inventoryRows, List.map_map]
    exact List.map_congr_left fun i _ => mkInvRow_asset_id i (ics i)
  rw [hmap]
  decide

theorem invChoice0_valid : invChoice0.Valid := by
  unfold DataGen.InvChoice.Valid invChoice0
  norm_num
  decide

theorem woChoice0_valid120 : DataGen.WoChoice.Valid 120 woChoice0 := by
  unfold DataGen.WoChoice.Valid woChoice0
  norm_num
  decide

theorem woChoiceOpen_valid120 : DataGen.WoChoice.Valid 120 woChoiceOpen := by
  unfold DataGen.WoChoice.Valid woChoiceOpen
  norm_num
  decide

theorem ctrChoice0_valid : ctrChoice0.Valid := by
  unfold DataGen.CtrChoice.Valid ctrChoice0
  norm_num
  decide

/-- C2 witness: the first work order of the constant-stream run references an
asset id of the same run's inventory batch. -/
theorem c2_referential_soundness_witness :
    (DataGen.mkWorkOrder (DataGen.asset_ids invStream0) 0 woChoice0).asset_id ∈
      DataGen.asset_ids invStream0 := by
  refine (c2_referential_soundness invStream0 woStream0 (fun _ => invChoice0_valid)
    (fun _ => ?_)).2.2 _ ?_
  · rw [asset_ids_length]
    exact woChoice0_valid120
  · simp only [DataGen.workOrderRows, List.mem_map, List.mem_range]
    exact ⟨0, by norm_num, rfl⟩

/-- C6 witness: the constant-stream run's inventory batch carries exactly the
asset ids AST-000001 … AST-000120. -/
theorem c6_seed_determinism_witness :
    DataGen.asset_ids invStream0 = expectedAssetIds :=
  (c6_seed_determinism invStream0 invStream0 woStream0 woStream0 ctrStream0 ctrStream0
    (fun _ => rfl) (fun _ => rfl) (fun _ => rfl)).2.2.2

/-- C7 witness: the concrete Emergency Repair work order `woChoice0` is
scheduled on its creation date. -/
theorem c7_emergency_repair_witness :
    (DataGen.mkWorkOrder expectedAssetIds 0 woChoice0).scheduled_date =
      (DataGen.mkWorkOrder expectedAssetIds 0 woChoice0).createdDay :=
  ((c7_emergency_repair expectedAssetIds 0 woChoice0 woChoice0_valid120) |>.1 rfl).2

/-- C8 witness: the concrete Open work order `woChoiceOpen` carries no labor
hours. -/
theorem c8_effort_fields_by_status_witness :
    (DataGen.mkWorkOrder expectedAssetIds 0 woChoiceOpen).labor_hours = none :=
  ((c8_effort_fields_by_status expectedAssetIds 0 woChoiceOpen).1 (Or.inl rfl)).1

/-- C10 witness: the concrete Completed Emergency Repair work order
`woChoice0` carries its drawn downtime value. -/
theorem c10_completed_zero_rule_witness :
    (DataGen.mkWorkOrder expectedAssetIds 0 woChoice0).downtime_hours =
      some woChoice0.downtime :=
  ((c10_completed_zero_rule expectedAssetIds 0 woChoice0 woChoice0_valid120 rfl).2.2.1
    (Or.inr rfl)).1
